import Mathlib

/-!
Verification of the signal-chain derived-quantity engine of
`qcodes_contrib_drivers`.  The repository holds two copies of the engine:

* `src/qcodes_contrib_drivers/drivers/virtual/signal_chain.py`  (suffix `_drv`)
* `src/qcodes_contrib_drivers/virtual/signal_chain.py`          (suffix `_virt`)

Scalars (volts, amps, ohms, hertz) are modelled as rationals; Python float
literals such as `1e-15` and `0.8` become the exact rationals they denote.
The backing nodes (Source, Converter, Amplifier, LockIn) are modelled as one
record of their live values, since the engine reads them afresh on every
call and writes flow straight through the delegate parameters.  A fallible
device read (the lock-in input range) is an `Option`; a raised Python
exception is an `Except.error`.  Side effects of one engine call are
recorded as an event list in the order the call performs them.
-/

/-- The live state of the four backing nodes as the engine sees it.
`srcHasFreq` models whether the Source node exposes a frequency parameter
(`hasattr(self.src_v, 'frequency')` in the virtual/ copy); `hasXY` models
whether the lock-in exposes the X and Y readouts (`hasattr(self, 'X')` in
the drivers/virtual copy); `inputRange = none` models a lock-in input-range
read that raises; `R_est = none` models the unset manual estimate. -/
structure ChainState where
  gm_a_per_v : ℚ
  vi_invert : Bool
  preamp_gain : ℚ
  preamp_invert : Bool
  level : ℚ
  output_on : Bool
  srcHasFreq : Bool
  src_freq : ℚ
  lockin_freq : ℚ
  inputRange : Option ℚ
  hasXY : Bool
  X : ℚ
  Y : ℚ
  R_est : Option ℚ
  deriving DecidableEq, Repr

/-- The float literal `1e-15` of `_set_I_target` and `_get_V_sample_ac_meas`
in drivers/virtual/signal_chain.py. -/
def tinyEps : ℚ := 1 / 10 ^ 15

/-- One observable side effect of an engine call, in program order:
entry into the overload guard, an emitted advisory warning (carrying the
predicted voltage and the input range it was checked against), and the
writes to the backing nodes. -/
inductive Event where
  | guardEval
  | warn (vpred range : ℚ)
  | writeLevel (v : ℚ)
  | writeOutputOn (b : Bool)
  | writeSrcFreq (f : ℚ)
  | writeLockinFreq (f : ℚ)
  deriving DecidableEq, Repr

/-- A raised Python exception: the `ValueError` of `_set_I_target` when the
effective transconductance is (near) zero, or an error escaping the
`input_range` read inside the guard of virtual/signal_chain.py. -/
inductive ChainErr where
  | zeroGm
  | inputRangeRead
  deriving DecidableEq, Repr

/-- `_gm_eff` (identical in both copies): effective transconductance,
`-gm` when the V→I transformer inverts, `gm` otherwise. -/
def gm_eff (s : ChainState) : ℚ :=
  if s.vi_invert then -s.gm_a_per_v else s.gm_a_per_v

/-- `_gv_eff` (identical in both copies): effective preamp gain,
`-gv` when the preamp inverts, `gv` otherwise. -/
def gv_eff (s : ChainState) : ℚ :=
  if s.preamp_invert then -s.preamp_gain else s.preamp_gain

/-- `_guard_lockin_overload` of drivers/virtual/signal_chain.py.  Skips when
`R_est` is unset or zero; otherwise predicts
`|I_target| * R_est * |gv_eff|`, reads the input range inside a
`try`/`except` (a failing read skips silently), and warns when the
prediction exceeds `0.8 * input_range`.  It never raises and writes no
node state, so it returns only the event list. -/
def guard_overload_drv (s : ChainState) (Itgt : ℚ) : List Event :=
  match s.R_est with
  | none => [Event.guardEval]
  | some R =>
    if R = 0 then [Event.guardEval]
    else
      let vpred := |Itgt| * R * |gv_eff s|
      match s.inputRange with
      | none => [Event.guardEval]
      | some ir =>
        if vpred > 0.8 * ir then [Event.guardEval, Event.warn vpred ir]
        else [Event.guardEval]

/-- `_guard_lockin_overload` of virtual/signal_chain.py.  Same formula, but
the `input_range` read is not protected: a failing read escapes as an
exception.  The events emitted before the raise are just the guard entry. -/
def guard_overload_virt (s : ChainState) (Itgt : ℚ) :
    Except ChainErr (List Event) :=
  match s.R_est with
  | none => .ok [Event.guardEval]
  | some R =>
    if R = 0 then .ok [Event.guardEval]
    else
      let vpred := |Itgt| * R * |gv_eff s|
      match s.inputRange with
      | none => .error .inputRangeRead
      | some ir =>
        if vpred > 0.8 * ir then .ok [Event.guardEval, Event.warn vpred ir]
        else .ok [Event.guardEval]

/-- `_set_I_target` of drivers/virtual/signal_chain.py: raise when
`abs(gm_eff) < 1e-15`, else compute `V_needed = I_target / gm_eff`, run the
guard, write `abs(V_needed)` to the source level, then enable the output.
Returns the call's outcome, the resulting node state, and the events in
order. -/
def set_I_target_drv (s : ChainState) (Itgt : ℚ) :
    Except ChainErr Unit × ChainState × List Event :=
  let g := gm_eff s
  if |g| < tinyEps then (.error .zeroGm, s, [])
  else
    let vNeeded := Itgt / g
    let evs := guard_overload_drv s Itgt
    (.ok (), { s with level := |vNeeded|, output_on := true },
      evs ++ [Event.writeLevel |vNeeded|, Event.writeOutputOn true])

/-- `_set_I_target` of virtual/signal_chain.py: raise when `gm_eff == 0`,
else compute `V_needed = I_target / gm_eff`, run the guard (whose
input-range read may raise and then aborts the call), write the signed
`V_needed` to the source level, then enable the output. -/
def set_I_target_virt (s : ChainState) (Itgt : ℚ) :
    Except ChainErr Unit × ChainState × List Event :=
  let g := gm_eff s
  if g = 0 then (.error .zeroGm, s, [])
  else
    let vNeeded := Itgt / g
    match guard_overload_virt s Itgt with
    | .error e => (.error e, s, [Event.guardEval])
    | .ok evs =>
      (.ok (), { s with level := vNeeded, output_on := true },
        evs ++ [Event.writeLevel vNeeded, Event.writeOutputOn true])

/-- `_get_I_cmd` (identical in both copies): commanded current recomputed
from the live effective transconductance and the current source level. -/
def get_I_cmd (s : ChainState) : ℚ :=
  gm_eff s * s.level

/-- `_set_ref_freq` of virtual/signal_chain.py: write the frequency to the
source only when the source exposes a frequency parameter, then always to
the lock-in. -/
def set_ref_freq_virt (s : ChainState) (f : ℚ) : ChainState × List Event :=
  if s.srcHasFreq then
    ({ s with src_freq := f, lockin_freq := f },
      [Event.writeSrcFreq f, Event.writeLockinFreq f])
  else
    ({ s with lockin_freq := f }, [Event.writeLockinFreq f])

/-- `_set_ref_freq` of drivers/virtual/signal_chain.py: the source write is
unconditional (`self.src_v.frequency.set(f)`); its source node type,
`MFLISource` of signal_chain_nodes.py, always declares a frequency
parameter, so the write succeeds whenever that contract holds. -/
def set_ref_freq_drv (s : ChainState) (f : ℚ) : ChainState × List Event :=
  ({ s with src_freq := f, lockin_freq := f },
    [Event.writeSrcFreq f, Event.writeLockinFreq f])

/-- `_get_ref_freq` (identical in both copies): the lock-in side is the
authority. -/
def get_ref_freq (s : ChainState) : ℚ :=
  s.lockin_freq

/-- The gain branch of `_get_V_sample_ac_meas` in
drivers/virtual/signal_chain.py, reached when the X and Y readouts exist:
`0+0i` when `abs(gv_eff) < 1e-15`, else `complex(X, Y) / gv_eff`
(a complex value divided by a real scalar divides both parts). -/
def V_sample_body_drv (s : ChainState) : ℚ × ℚ :=
  if |gv_eff s| < tinyEps then (0, 0)
  else (s.X / gv_eff s, s.Y / gv_eff s)

/-- `_get_V_sample_ac_meas` of drivers/virtual/signal_chain.py: `None`
when the lock-in exposes no X/Y readouts, otherwise the gain branch. -/
def V_sample_drv (s : ChainState) : Option (ℚ × ℚ) :=
  if s.hasXY then some (V_sample_body_drv s) else none

/-- `_get_V_sample_ac_meas` of virtual/signal_chain.py: reads X and Y
unconditionally; `0+0i` exactly when `gv_eff == 0`. -/
def V_sample_virt (s : ChainState) : ℚ × ℚ :=
  if gv_eff s = 0 then (0, 0)
  else (s.X / gv_eff s, s.Y / gv_eff s)

/-- `abs` of a Python complex number: the magnitude of the modelled
real/imaginary pair. -/
noncomputable def cabs (z : ℚ × ℚ) : ℝ :=
  Real.sqrt ((z.1 : ℝ) ^ 2 + (z.2 : ℝ) ^ 2)

/-- `_get_I_meas` of drivers/virtual/signal_chain.py: `None` when `R_est`
is unset or zero, `None` when the sample voltage is `None` (no X/Y
readouts), else `abs(V_sample) / R_est`. -/
noncomputable def I_meas_drv (s : ChainState) : Option ℝ :=
  match s.R_est with
  | none => none
  | some R =>
    if R = 0 then none
    else
      match V_sample_drv s with
      | none => none
      | some z => some (cabs z / (R : ℝ))

/-- `_get_I_meas` of virtual/signal_chain.py: `None` when `R_est` is unset
or zero, else `abs(V_sample) / R_est` with the sample voltage read
unconditionally. -/
noncomputable def I_meas_virt (s : ChainState) : Option ℝ :=
  match s.R_est with
  | none => none
  | some R =>
    if R = 0 then none
    else some (cabs (V_sample_virt s) / (R : ℝ))

/-- A baseline node state: the initial values the repository's node classes
declare (`gm = 1e-3 A/V`, preamp gain `100`, nothing inverted, output off,
input range 1 V, `R_est` unset). -/
def baseState : ChainState :=
  { gm_a_per_v := 1 / 1000
    vi_invert := false
    preamp_gain := 100
    preamp_invert := false
    level := 0
    output_on := false
    srcHasFreq := true
    src_freq := 0
    lockin_freq := 0
    inputRange := some 1
    hasXY := true
    X := 0
    Y := 0
    R_est := none }

/-- Symbolic run of `_set_I_target` (drivers/virtual) when the
transconductance check passes: guard events, then the level write of
`abs(V_needed)`, then the output enable. -/
theorem eval_set_drv_ok (s : ChainState) (Itgt : ℚ)
    (hg : ¬ |gm_eff s| < tinyEps) :
    set_I_target_drv s Itgt =
      (.ok (), { s with level := |Itgt / gm_eff s|, output_on := true },
        guard_overload_drv s Itgt ++
          [Event.writeLevel |Itgt / gm_eff s|, Event.writeOutputOn true]) := by
  simp only [set_I_target_drv]
  rw [if_neg hg]

/-- Symbolic run of `_set_I_target` (virtual/) when the transconductance
check passes and the guard returns normally: guard events, then the level
write of the signed `V_needed`, then the output enable. -/
theorem eval_set_virt_ok (s : ChainState) (Itgt : ℚ) (evs : List Event)
    (hg : gm_eff s ≠ 0) (hguard : guard_overload_virt s Itgt = .ok evs) :
    set_I_target_virt s Itgt =
      (.ok (), { s with level := Itgt / gm_eff s, output_on := true },
        evs ++ [Event.writeLevel (Itgt / gm_eff s), Event.writeOutputOn true]) := by
  simp only [set_I_target_virt]
  rw [if_neg hg, hguard]

/-- C2: with zero effective transconductance both copies of
`setCurrentTarget` raise the zero-transconductance error with the backing
state unchanged and an empty event trace — no source write, no
output-enable write, and no guard evaluation happens before the raise. -/
theorem C2_zero_gm_atomic (s : ChainState) (Itgt : ℚ) (h : gm_eff s = 0) :
    set_I_target_drv s Itgt = (Except.error ChainErr.zeroGm, s, []) ∧
    set_I_target_virt s Itgt = (Except.error ChainErr.zeroGm, s, []) := by
  constructor
  · simp only [set_I_target_drv, h]
    rw [if_pos (by norm_num [tinyEps])]
  · simp only [set_I_target_virt, h]
    simp

/-- A node state whose transconductance is exactly zero. -/
def stZeroGm : ChainState := { baseState with gm_a_per_v := 0 }

/-- C2 witness: the zero-transconductance state with target 5 A. -/
theorem C2_zero_gm_atomic_at_zero :
    set_I_target_drv stZeroGm 5 = (Except.error ChainErr.zeroGm, stZeroGm, []) ∧
    set_I_target_virt stZeroGm 5 = (Except.error ChainErr.zeroGm, stZeroGm, []) :=
  C2_zero_gm_atomic stZeroGm 5 (by norm_num [gm_eff, stZeroGm, baseState])

/-- C8: in drivers/virtual, `setCurrentTarget` raises the
zero-transconductance error — with no source write and no guard run —
whenever `|gm_eff| < 1e-15`, which covers strictly nonzero magnitudes
below the implicit epsilon, not only exact zero. -/
theorem C8_subeps_gm_raises_drv (s : ChainState) (Itgt : ℚ)
    (h : |gm_eff s| < tinyEps) :
    set_I_target_drv s Itgt = (Except.error ChainErr.zeroGm, s, []) := by
  simp only [set_I_target_drv]
  rw [if_pos h]

/-- A node state whose transconductance is the nonzero value `1e-16`,
strictly below the drivers/virtual epsilon `1e-15`. -/
def stTinyGm : ChainState := { baseState with gm_a_per_v := 1 / 10 ^ 16 }

/-- C8 witness: `gm_eff = 1e-16` is nonzero yet the drivers/virtual set
path raises and leaves the state untouched. -/
theorem C8_subeps_gm_raises_drv_at_1e16 :
    gm_eff stTinyGm ≠ 0 ∧
    set_I_target_drv stTinyGm 3 = (Except.error ChainErr.zeroGm, stTinyGm, []) :=
  ⟨by norm_num [gm_eff, stTinyGm, baseState],
    C8_subeps_gm_raises_drv stTinyGm 3
      (by norm_num [gm_eff, stTinyGm, baseState, tinyEps, abs_lt])⟩

/-- An inverting-transformer state: `gm = 1e-3 A/V` with `vi_invert`
set, so `gm_eff = -1e-3 A/V`; `R_est` unset, so the guard is silent. -/
def stInvertGm : ChainState := { baseState with vi_invert := true }

/-- C1: concrete run of the drivers/virtual setpoint path refuting the
round-trip.  With `gm_eff = -1e-3` and target `1e-6 A`, the call succeeds
(writing `|V_needed| = 1e-3 V`), yet `getCommandedCurrent` afterwards
returns `-1e-6 A`: the sign of the target is lost, far outside any
`1e-12` relative tolerance.  The virtual/ copy at the same input writes
the signed `-1e-3 V` and round-trips exactly, matching the repository's
own tests. -/
theorem C1_drv_roundtrip_sign_flip :
    (set_I_target_drv stInvertGm (1 / 1000000)).1 = Except.ok () ∧
    get_I_cmd (set_I_target_drv stInvertGm (1 / 1000000)).2.1 = -(1 / 1000000) ∧
    get_I_cmd (set_I_target_drv stInvertGm (1 / 1000000)).2.1 ≠ 1 / 1000000 ∧
    (set_I_target_virt stInvertGm (1 / 1000000)).1 = Except.ok () ∧
    get_I_cmd (set_I_target_virt stInvertGm (1 / 1000000)).2.1 = 1 / 1000000 := by
  have habs : |(1 : ℚ) / 1000| = 1 / 1000 := by norm_num
  norm_num [set_I_target_drv, set_I_target_virt, get_I_cmd, gm_eff,
    guard_overload_drv, guard_overload_virt, stInvertGm, baseState, tinyEps,
    abs_lt, habs]

/-- Symbolic run of the drivers/virtual guard when `R_est` is set and
nonzero and the input-range read succeeds. -/
theorem eval_guard_drv (s : ChainState) (Itgt R ir : ℚ)
    (hR : s.R_est = some R) (hR0 : R ≠ 0) (hir : s.inputRange = some ir) :
    guard_overload_drv s Itgt =
      if |Itgt| * R * |gv_eff s| > 0.8 * ir then
        [Event.guardEval, Event.warn (|Itgt| * R * |gv_eff s|) ir]
      else [Event.guardEval] := by
  simp only [guard_overload_drv, hR, hir]
  rw [if_neg hR0]

/-- Symbolic run of the virtual/ guard when `R_est` is set and nonzero and
the input-range read succeeds: same events, no exception. -/
theorem eval_guard_virt (s : ChainState) (Itgt R ir : ℚ)
    (hR : s.R_est = some R) (hR0 : R ≠ 0) (hir : s.inputRange = some ir) :
    guard_overload_virt s Itgt =
      .ok (if |Itgt| * R * |gv_eff s| > 0.8 * ir then
        [Event.guardEval, Event.warn (|Itgt| * R * |gv_eff s|) ir]
      else [Event.guardEval]) := by
  simp only [guard_overload_virt, hR, hir]
  rw [if_neg hR0]
  split <;> rfl

/-- C3: with `R_est` set and nonzero and a readable input range, both
copies of the setpoint path emit the advisory warning if and only if the
predicted voltage `|I_target| * R_est * |gv_eff|` strictly exceeds
`0.8 * input_range`; and whether or not the advisory fires, the call still
writes the source level and then enables the output. -/
theorem C3_guard_iff_threshold_nonblocking (s : ChainState) (Itgt R ir : ℚ)
    (hR : s.R_est = some R) (hR0 : R ≠ 0) (hir : s.inputRange = some ir)
    (hg : ¬ |gm_eff s| < tinyEps) :
    (Event.warn (|Itgt| * R * |gv_eff s|) ir ∈ (set_I_target_drv s Itgt).2.2 ↔
      |Itgt| * R * |gv_eff s| > 0.8 * ir) ∧
    (Event.warn (|Itgt| * R * |gv_eff s|) ir ∈ (set_I_target_virt s Itgt).2.2 ↔
      |Itgt| * R * |gv_eff s| > 0.8 * ir) ∧
    (set_I_target_drv s Itgt).1 = Except.ok () ∧
    (set_I_target_drv s Itgt).2.1.level = |Itgt / gm_eff s| ∧
    (set_I_target_drv s Itgt).2.1.output_on = true ∧
    Event.writeLevel |Itgt / gm_eff s| ∈ (set_I_target_drv s Itgt).2.2 ∧
    Event.writeOutputOn true ∈ (set_I_target_drv s Itgt).2.2 ∧
    (set_I_target_virt s Itgt).1 = Except.ok () ∧
    (set_I_target_virt s Itgt).2.1.level = Itgt / gm_eff s ∧
    (set_I_target_virt s Itgt).2.1.output_on = true ∧
    Event.writeLevel (Itgt / gm_eff s) ∈ (set_I_target_virt s Itgt).2.2 ∧
    Event.writeOutputOn true ∈ (set_I_target_virt s Itgt).2.2 := by
  have hg0 : gm_eff s ≠ 0 := by
    intro h0
    exact hg (by rw [h0]; norm_num [tinyEps])
  rw [eval_set_drv_ok s Itgt hg,
    eval_set_virt_ok s Itgt _ hg0 (eval_guard_virt s Itgt R ir hR hR0 hir),
    eval_guard_drv s Itgt R ir hR hR0 hir]
  by_cases hc : |Itgt| * R * |gv_eff s| > 0.8 * ir
  · simp [hc]
  · simp [hc]

/-- A state with `R_est = 10 kΩ` set: with preamp gain 100 and input range
1 V, a 1 µA target predicts 1 V at the lock-in input, above the 0.8 V
threshold. -/
def stGuardHot : ChainState := { baseState with R_est := some 10000 }

/-- C3 witness: the spec's own guard scenario (`R_est = 10 kΩ`, gain 100,
range 1 V, target 1 µA) — the advisory fires and both writes happen. -/
theorem C3_guard_iff_at_hot_input :
    Event.warn (|(1 : ℚ) / 1000000| * 10000 * |gv_eff stGuardHot|) 1 ∈
      (set_I_target_drv stGuardHot (1 / 1000000)).2.2 ∧
    (set_I_target_drv stGuardHot (1 / 1000000)).1 = Except.ok () ∧
    (set_I_target_drv stGuardHot (1 / 1000000)).2.1.output_on = true ∧
    (set_I_target_virt stGuardHot (1 / 1000000)).1 = Except.ok () ∧
    (set_I_target_virt stGuardHot (1 / 1000000)).2.1.output_on = true := by
  obtain ⟨h1, _, h3, _, h5, _, _, h8, _, h10, _, _⟩ :=
    C3_guard_iff_threshold_nonblocking stGuardHot (1 / 1000000) 10000 1
      rfl (by norm_num) rfl
      (by norm_num [gm_eff, stGuardHot, baseState, tinyEps, abs_lt])
  refine ⟨h1.mpr ?_, h3, h5, h8, h10⟩
  have habs : |(1 : ℚ) / 1000000| = 1 / 1000000 := by norm_num
  norm_num [gv_eff, stGuardHot, baseState, habs]

/-- A state in which the lock-in input-range read raises while `R_est`
is set and nonzero. -/
def stGuardErr : ChainState :=
  { baseState with R_est := some 1000, inputRange := none }

/-- C4 counterexample: in virtual/signal_chain.py the guard's input-range
read is not protected, so with `R_est = 1 kΩ` set and a failing read the
guard — and hence `setCurrentTarget` — propagates the exception instead of
returning normally, and the setpoint writes never happen. -/
theorem C4_virt_guard_read_error_propagates :
    guard_overload_virt stGuardErr 1 = Except.error ChainErr.inputRangeRead ∧
    (set_I_target_virt stGuardErr 1).1 = Except.error ChainErr.inputRangeRead ∧
    (set_I_target_virt stGuardErr 1).2.1 = stGuardErr ∧
    (set_I_target_virt stGuardErr 1).2.2 = [Event.guardEval] := by
  norm_num [guard_overload_virt, set_I_target_virt, gm_eff, stGuardErr,
    baseState]

/-- C4 (amended): in drivers/virtual, a failing input-range read makes the
guard return normally with no warning — the same event trace as the
`R_est`-unset case — and `setCurrentTarget` still writes the level and
enables the output. -/
theorem C4_drv_guard_fail_open (s : ChainState) (Itgt : ℚ)
    (hir : s.inputRange = none) (hg : ¬ |gm_eff s| < tinyEps) :
    guard_overload_drv s Itgt = [Event.guardEval] ∧
    set_I_target_drv s Itgt =
      (Except.ok (), { s with level := |Itgt / gm_eff s|, output_on := true },
        [Event.guardEval, Event.writeLevel |Itgt / gm_eff s|,
          Event.writeOutputOn true]) := by
  have hgd : guard_overload_drv s Itgt = [Event.guardEval] := by
    unfold guard_overload_drv
    cases hR : s.R_est with
    | none => rfl
    | some R =>
      simp only [hir]
      split <;> rfl
  refine ⟨hgd, ?_⟩
  rw [eval_set_drv_ok s Itgt hg, hgd]
  rfl

/-- C4 witness: the failing-read state, where the drivers/virtual guard
skips silently and the setpoint write still goes through. -/
theorem C4_drv_guard_fail_open_at_read_error :
    guard_overload_drv stGuardErr 1 = [Event.guardEval] ∧
    set_I_target_drv stGuardErr 1 =
      (Except.ok (),
        { stGuardErr with level := |1 / gm_eff stGuardErr|, output_on := true },
        [Event.guardEval, Event.writeLevel |1 / gm_eff stGuardErr|,
          Event.writeOutputOn true]) :=
  C4_drv_guard_fail_open stGuardErr 1 rfl
    (by norm_num [gm_eff, stGuardErr, baseState, tinyEps, abs_lt])

/-- C7: `setReferenceFrequency(f)` always writes `f` to the lock-in
frequency; the virtual/ copy writes the source frequency exactly when the
source exposes a frequency capability (leaving it untouched otherwise),
the source write ordered before the lock-in write; the drivers/virtual
copy, whose `MFLISource` node always has the capability, writes both, in
the same order. -/
theorem C7_ref_freq_fanout (s : ChainState) (f : ℚ) :
    get_ref_freq (set_ref_freq_virt s f).1 = f ∧
    (s.srcHasFreq = true →
      (set_ref_freq_virt s f).1.src_freq = f ∧
      (set_ref_freq_virt s f).2 =
        [Event.writeSrcFreq f, Event.writeLockinFreq f]) ∧
    (s.srcHasFreq = false →
      (set_ref_freq_virt s f).1.src_freq = s.src_freq ∧
      (set_ref_freq_virt s f).2 = [Event.writeLockinFreq f]) ∧
    get_ref_freq (set_ref_freq_drv s f).1 = f ∧
    (set_ref_freq_drv s f).1.src_freq = f ∧
    (set_ref_freq_drv s f).2 =
      [Event.writeSrcFreq f, Event.writeLockinFreq f] := by
  unfold set_ref_freq_virt set_ref_freq_drv get_ref_freq
  by_cases h : s.srcHasFreq <;> simp [h]

/-- A state with a nonzero sub-epsilon preamp gain (`1e-16`) and a nonzero
X readout. -/
def stTinyGv : ChainState :=
  { baseState with preamp_gain := 1 / 10 ^ 16, X := 1 }

/-- C5 counterexample: in drivers/virtual, with the nonzero effective gain
`gv_eff = 1e-16` and `X = 1`, `sampleVoltage` returns `0+0i` instead of
the claimed `(X + iY) / gv_eff = 1e16 + 0i`. -/
theorem C5_drv_tiny_gain_zeroed :
    gv_eff stTinyGv ≠ 0 ∧
    V_sample_drv stTinyGv = some (0, 0) ∧
    V_sample_drv stTinyGv ≠
      some (stTinyGv.X / gv_eff stTinyGv, stTinyGv.Y / gv_eff stTinyGv) := by
  norm_num [V_sample_drv, V_sample_body_drv, gv_eff, stTinyGv, baseState,
    tinyEps, abs_lt, Prod.ext_iff]

/-- C5 (amended): with the X/Y readouts present, the drivers/virtual
`sampleVoltage` returns `(X + iY) / gv_eff` whenever `|gv_eff| ≥ 1e-15`
and `0+0i` whenever `|gv_eff| < 1e-15` (so also at small nonzero gains),
while the virtual/ copy returns the quotient for every nonzero `gv_eff`
and `0+0i` exactly at `gv_eff = 0`; both are total, never raising a
division error. -/
theorem C5_sample_voltage_branches (s : ChainState) (hXY : s.hasXY = true) :
    (¬ |gv_eff s| < tinyEps →
      V_sample_drv s = some (s.X / gv_eff s, s.Y / gv_eff s)) ∧
    (|gv_eff s| < tinyEps → V_sample_drv s = some (0, 0)) ∧
    (gv_eff s ≠ 0 → V_sample_virt s = (s.X / gv_eff s, s.Y / gv_eff s)) ∧
    (gv_eff s = 0 → V_sample_virt s = (0, 0)) := by
  refine ⟨fun h => ?_, fun h => ?_, fun h => ?_, fun h => ?_⟩
  · simp [V_sample_drv, V_sample_body_drv, hXY, h]
  · simp [V_sample_drv, V_sample_body_drv, hXY, h]
  · simp [V_sample_virt, h]
  · simp [V_sample_virt, h]

/-- A readout state `X = 3 V`, `Y = 4 V` at the default gain 100. -/
def stSample : ChainState := { baseState with X := 3, Y := 4 }

/-- C5 witness: at gain 100 both copies return the quotient. -/
theorem C5_sample_voltage_branches_at_gain100 :
    V_sample_drv stSample =
      some (stSample.X / gv_eff stSample, stSample.Y / gv_eff stSample) ∧
    V_sample_virt stSample =
      (stSample.X / gv_eff stSample, stSample.Y / gv_eff stSample) := by
  have h := C5_sample_voltage_branches stSample rfl
  exact ⟨h.1 (by norm_num [gv_eff, stSample, baseState, tinyEps, abs_lt]),
    h.2.2.1 (by norm_num [gv_eff, stSample, baseState])⟩

/-- C6: with the X/Y readouts present, `measuredCurrent` returns the
absent marker `none` whenever `R_est` is unset or exactly zero — in both
copies — and otherwise returns `|sampleVoltage| / R_est`. -/
theorem C6_measured_current_absent_or_quotient (s : ChainState) (R : ℚ)
    (hXY : s.hasXY = true) :
    (s.R_est = none → I_meas_drv s = none ∧ I_meas_virt s = none) ∧
    (s.R_est = some 0 → I_meas_drv s = none ∧ I_meas_virt s = none) ∧
    (s.R_est = some R → R ≠ 0 →
      I_meas_drv s = some (cabs (V_sample_body_drv s) / (R : ℝ)) ∧
      I_meas_virt s = some (cabs (V_sample_virt s) / (R : ℝ))) := by
  refine ⟨fun h => ?_, fun h => ?_, fun h hR0 => ?_⟩
  · simp [I_meas_drv, I_meas_virt, h]
  · simp [I_meas_drv, I_meas_virt, h]
  · simp [I_meas_drv, I_meas_virt, h, hR0, V_sample_drv, hXY]

/-- The readout state `X = 3`, `Y = 4` with unit preamp gain and
`R_est = 5 Ω` set. -/
def stSampleG1 : ChainState :=
  { baseState with preamp_gain := 1, X := 3, Y := 4, R_est := some 5 }

/-- C6 witness: with `R_est = 5 Ω` set, both copies return the magnitude
of the sample voltage divided by `R_est`. -/
theorem C6_measured_current_at_R5 :
    I_meas_drv stSampleG1 =
      some (cabs (V_sample_body_drv stSampleG1) / ((5 : ℚ) : ℝ)) ∧
    I_meas_virt stSampleG1 =
      some (cabs (V_sample_virt stSampleG1) / ((5 : ℚ) : ℝ)) :=
  (C6_measured_current_absent_or_quotient stSampleG1 5 rfl).2.2 rfl
    (by norm_num)

/-- The magnitude of a modelled complex value is nonnegative. -/
theorem cabs_nonneg (z : ℚ × ℚ) : 0 ≤ cabs z :=
  Real.sqrt_nonneg _

/-- C9: whenever `R_est` is set to a positive resistance and
`measuredCurrent` returns a numeric value rather than the absent marker,
that value is nonnegative — in both copies, for every readout and gain. -/
theorem C9_measured_current_nonneg (s : ChainState) (R : ℚ) (v : ℝ)
    (hR : s.R_est = some R) (hRpos : 0 < R) :
    (I_meas_drv s = some v → 0 ≤ v) ∧ (I_meas_virt s = some v → 0 ≤ v) := by
  have hR0 : ¬R = 0 := ne_of_gt hRpos
  have hRr : (0 : ℝ) ≤ (R : ℝ) := by exact_mod_cast hRpos.le
  constructor
  · intro h
    simp only [I_meas_drv, hR, if_neg hR0] at h
    cases hV : V_sample_drv s with
    | none => rw [hV] at h; exact absurd h (by simp)
    | some z =>
      rw [hV] at h
      simp only [Option.some.injEq] at h
      rw [← h]
      exact div_nonneg (cabs_nonneg z) hRr
  · intro h
    simp only [I_meas_virt, hR, if_neg hR0, Option.some.injEq] at h
    rw [← h]
    exact div_nonneg (cabs_nonneg _) hRr

/-- C9 witness: at `X = 3`, `Y = 4`, unit gain and `R_est = 5 Ω`,
`measuredCurrent` is `|3 + 4i| / 5 = 1 A` and indeed nonnegative. -/
theorem C9_measured_current_nonneg_at_unit_gain :
    I_meas_drv stSampleG1 = some 1 ∧ (0 : ℝ) ≤ 1 := by
  have hc : cabs ((3 : ℚ), (4 : ℚ)) = 5 := by
    unfold cabs
    push_cast
    rw [show ((3 : ℝ) ^ 2 + 4 ^ 2) = 5 ^ 2 by norm_num]
    exact Real.sqrt_sq (by norm_num)
  have hbody : V_sample_body_drv stSampleG1 = (3, 4) := by
    norm_num [V_sample_body_drv, gv_eff, stSampleG1, baseState, tinyEps,
      abs_lt]
  have hmeas : I_meas_drv stSampleG1 = some 1 := by
    have hR : stSampleG1.R_est = some 5 := rfl
    have hXY : stSampleG1.hasXY = true := rfl
    simp only [I_meas_drv, hR, V_sample_drv, hXY, if_true, hbody, hc]
    norm_num
  exact ⟨hmeas,
    (C9_measured_current_nonneg stSampleG1 5 1 rfl (by norm_num)).1 hmeas⟩

/-- C10 counterexample: from the default state (`gm_eff = 1e-3`, guard
silent) with the negative target `-1 mA`, both copies succeed, but
drivers/virtual writes `+1 V` to the source level while virtual/ writes
`-1 V`: the two setpoint paths do not write the same value. -/
theorem C10_signed_target_levels_differ :
    (set_I_target_drv baseState (-(1 / 1000))).1 = Except.ok () ∧
    (set_I_target_virt baseState (-(1 / 1000))).1 = Except.ok () ∧
    (set_I_target_drv baseState (-(1 / 1000))).2.1.level = 1 ∧
    (set_I_target_virt baseState (-(1 / 1000))).2.1.level = -1 ∧
    (set_I_target_drv baseState (-(1 / 1000))).2.1.level ≠
      (set_I_target_virt baseState (-(1 / 1000))).2.1.level := by
  norm_num [set_I_target_drv, set_I_target_virt, guard_overload_drv,
    guard_overload_virt, gm_eff, baseState, tinyEps, abs_lt]

/-- C10 (amended): whenever both setpoint paths succeed from the same
state, drivers/virtual writes `|I_target / gm_eff|` to the source level
and virtual/ writes the signed `I_target / gm_eff`; the two written
levels agree exactly when `I_target / gm_eff` is nonnegative. -/
theorem C10_level_write_relation (s : ChainState) (Itgt : ℚ)
    (evs : List Event) (hg : ¬ |gm_eff s| < tinyEps)
    (hguard : guard_overload_virt s Itgt = .ok evs) :
    (set_I_target_drv s Itgt).1 = Except.ok () ∧
    (set_I_target_virt s Itgt).1 = Except.ok () ∧
    (set_I_target_drv s Itgt).2.1.level = |Itgt / gm_eff s| ∧
    (set_I_target_virt s Itgt).2.1.level = Itgt / gm_eff s ∧
    ((set_I_target_drv s Itgt).2.1.level =
        (set_I_target_virt s Itgt).2.1.level ↔
      0 ≤ Itgt / gm_eff s) := by
  have hg0 : gm_eff s ≠ 0 := by
    intro h0
    exact hg (by rw [h0]; norm_num [tinyEps])
  rw [eval_set_drv_ok s Itgt hg, eval_set_virt_ok s Itgt evs hg0 hguard]
  refine ⟨rfl, rfl, rfl, rfl, ?_⟩
  exact abs_eq_self (a := Itgt / gm_eff s)

/-- C10 witness: a positive target from the default state — both copies
succeed and write the same `+2000 V`-magnitude level, since the quotient
is nonnegative. -/
theorem C10_level_write_relation_at_pos_target :
    (set_I_target_drv baseState 2).1 = Except.ok () ∧
    (set_I_target_virt baseState 2).1 = Except.ok () ∧
    (set_I_target_drv baseState 2).2.1.level = |(2 : ℚ) / gm_eff baseState| ∧
    (set_I_target_virt baseState 2).2.1.level = 2 / gm_eff baseState ∧
    ((set_I_target_drv baseState 2).2.1.level =
        (set_I_target_virt baseState 2).2.1.level ↔
      0 ≤ (2 : ℚ) / gm_eff baseState) :=
  C10_level_write_relation baseState 2 [Event.guardEval]
    (by norm_num [gm_eff, baseState, tinyEps, abs_lt]) rfl
